import Mathlib

/-!
Verification development for the MoodNest backend (`backend/server.py`).

The Python routes are shallowly embedded as pure Lean functions over
explicit state.  Datetimes are modelled as integers counting
microseconds (the exact resolution of Python `datetime`), so
`datetime.date()` becomes floor division by the number of microseconds
in a day, and differences of `date` objects measured in days become
integer subtraction.  MongoDB collections become Lean lists of
documents, and an `update_one` counts a document as modified exactly
when the applied `$set` changes it.
-/

namespace MoodNest

/-- A mood-entry document, as stored in the `mood_entries` collection by
`create_mood_entry`.  Factor values are rationals because Python reads
them back into arithmetic that divides them.  The timestamp is in
microseconds; `created_at` is omitted (no embedded route reads it). -/
structure MoodEntryDoc where
  mood_value : Int
  mood_emoji : String
  mood_color : String
  factors : List (String × ℚ)
  journal_text : Option String
  timestamp : ℤ
deriving DecidableEq

/-- Microseconds in one day: `timedelta(days=1)` at `datetime`
resolution. -/
def dayUS : ℤ := 86400000000

/-- `timestamp.date()`: the calendar date of a point in time, as the
number of the day it falls in (floor division, matching the proleptic
calendar). -/
def dateOf (t : ℤ) : ℤ := Int.fdiv t dayUS

/-- The set of distinct calendar dates carrying at least one entry:
`dates = set()` / `dates.add(entry["timestamp"].date())` in
`get_achievements`. -/
def entryDates (entries : List MoodEntryDoc) : Finset ℤ :=
  (entries.map (fun e => dateOf e.timestamp)).toFinset

/-- The streak loop of `get_achievements` (`for i in range(len(sorted_dates) - 1)`).
`i` is the loop index, `temp` the running counter `temp_streak`, and the
pair returned is `(current_streak, longest_streak)` after the final
`longest_streak = max(longest_streak, current_streak)`. -/
def streakWalk : List ℤ → Nat → Nat → Nat → Nat → Nat × Nat
  | a :: b :: rest, i, temp, current, longest =>
    if a - b = 1 then
      let temp2 := temp + 1
      let current2 := if i = 0 then temp2 else current
      streakWalk (b :: rest) (i + 1) temp2 current2 (max longest temp2)
    else
      streakWalk (b :: rest) (i + 1) 1 current (max longest 1)
  | _, _, _, current, longest => (current, max longest current)

/-- The full streak computation of `get_achievements`: zero streaks for
an empty history, otherwise the walk over the dates sorted descending
(`sorted(dates, reverse=True)`), started with
`current_streak = temp_streak = 1` and `longest_streak = 0`. -/
def computeStreaks (dates : Finset ℤ) : Nat × Nat :=
  if dates = ∅ then (0, 0)
  else streakWalk ((dates.sort (· ≤ ·)).reverse) 0 1 1 0

/-- A worry document, as stored in the `worries` collection by
`create_worry` and mutated by `update_worry`. -/
structure WorryDoc where
  id : String
  user_id : String
  worry_text : String
  category : String
  intensity : Int
  created_at : ℤ
  resolved_at : Option ℤ
  resolution_note : Option String
deriving DecidableEq

/-- One achievement record of the `get_achievements` response. -/
structure Achievement where
  id : String
  title : String
  description : String
  icon : String
  unlocked : Bool
  progress : Nat
  requirement : Nat
deriving DecidableEq

/-- The `stats` object of the `get_achievements` response. -/
structure AchievementStats where
  progress : Nat
  total : Nat
  completion : ℤ
deriving DecidableEq

/-- The full `get_achievements` response. -/
structure AchievementsResponse where
  achievements : List Achievement
  stats : AchievementStats
deriving DecidableEq

/-- The literal 9-element achievement catalog of `get_achievements`,
as a function of the five user statistics it reads.  The icon strings
are copied byte-for-byte from the source file (which stores them
double-encoded). -/
def achievementCatalog (moodCount worryCount resolvedWorries happyMoods
    currentStreak : Nat) : List Achievement :=
  [ { id := "1", title := "First Step",
      description := "Log your first mood entry", icon := "ðŸŒŸ",
      unlocked := 1 ≤ moodCount, progress := min moodCount 1,
      requirement := 1 },
    { id := "2", title := "Week Warrior",
      description := "Log moods for 7 days in a row", icon := "ðŸ”¥",
      unlocked := 7 ≤ currentStreak, progress := min currentStreak 7,
      requirement := 7 },
    { id := "3", title := "Month Master",
      description := "Log moods for 30 days in a row", icon := "ðŸ†",
      unlocked := 30 ≤ currentStreak, progress := min currentStreak 30,
      requirement := 30 },
    { id := "4", title := "Century Club",
      description := "Log 100 mood entries", icon := "ðŸ’¯",
      unlocked := 100 ≤ moodCount, progress := min moodCount 100,
      requirement := 100 },
    { id := "5", title := "Happy Days",
      description := "Log 10 very good moods", icon := "ðŸ˜„",
      unlocked := 10 ≤ happyMoods, progress := min happyMoods 10,
      requirement := 10 },
    { id := "6", title := "Growth Mindset",
      description := "Log 50 journal entries", icon := "ðŸŒ±",
      unlocked := false, progress := 0,
      requirement := 50 },
    { id := "7", title := "Worry Warrior",
      description := "Create 10 worry trees", icon := "ðŸŒ³",
      unlocked := 10 ≤ worryCount, progress := min worryCount 10,
      requirement := 10 },
    { id := "8", title := "Peace Seeker",
      description := "Resolve 20 worries", icon := "ðŸ•Šï¸",
      unlocked := 20 ≤ resolvedWorries, progress := min resolvedWorries 20,
      requirement := 20 },
    { id := "9", title := "Consistent Tracker",
      description := "Log moods for 365 days", icon := "ðŸ“…",
      unlocked := 365 ≤ currentStreak, progress := min currentStreak 365,
      requirement := 365 } ]

/-- The `get_achievements` route for one user, as a function of that
user's stored mood entries and worries.  `completion` is
`round(unlocked_count / len(achievements) * 100)`; Python `round` is
modelled by rounding the exact rational, which agrees with it on every
reachable value (multiples of 100/9 are never half-integers, and the
float error is far smaller than the distance to the nearest tie). -/
def getAchievements (entries : List MoodEntryDoc) (worries : List WorryDoc) :
    AchievementsResponse :=
  let moodCount := entries.length
  let worryCount := worries.length
  let resolvedWorries := (worries.filter (fun w => w.category = "resolved")).length
  let currentStreak := (computeStreaks (entryDates entries)).1
  let happyMoods := (entries.filter (fun e => 4 ≤ e.mood_value)).length
  let achievements :=
    achievementCatalog moodCount worryCount resolvedWorries happyMoods currentStreak
  let unlockedCount := (achievements.filter (fun a => a.unlocked)).length
  { achievements := achievements,
    stats :=
      { progress := unlockedCount, total := achievements.length,
        completion := round ((unlockedCount : ℚ) / (achievements.length : ℚ) * 100) } }

/-- `entry["factors"].get(key, 0)`: look a factor up in an association
list, defaulting to `0` when the key is missing. -/
def factorsGet (fs : List (String × ℚ)) (k : String) : ℚ :=
  (fs.lookup k).getD 0

/-- The `get_mood_stats` response object. -/
structure MoodStats where
  average_mood : ℚ
  total_entries : Nat
  mood_distribution : Int → Nat
  average_factors : List (String × ℚ)

/-- The `get_mood_stats` route: the entries of the window are those with
`timestamp >= now - days`; the zeroed result is returned when none
match.  The distribution dict is modelled extensionally as the counting
function it builds; `average_factors` maps each factor key of the first
windowed entry to the sum of that factor over all windowed entries
(missing keys contributing 0) divided by the window size. -/
def getMoodStats (now : ℤ) (days : Nat) (allEntries : List MoodEntryDoc) :
    MoodStats :=
  let entries := allEntries.filter (fun e => now - days * dayUS ≤ e.timestamp)
  match entries with
  | [] =>
      { average_mood := 0, total_entries := 0,
        mood_distribution := fun _ => 0, average_factors := [] }
  | e0 :: _ =>
      { average_mood :=
          ((entries.map (fun e => e.mood_value)).sum : ℚ) / entries.length,
        total_entries := entries.length,
        mood_distribution := fun v =>
          (entries.filter (fun e => e.mood_value = v)).length,
        average_factors :=
          e0.factors.map (fun kv =>
            (kv.1, (entries.map (fun e => factorsGet e.factors kv.1)).sum
                     / entries.length)) }

/-- A JSON value, the result of a successful `json.loads`. -/
inductive Json where
  | null
  | bool (b : Bool)
  | num (q : ℚ)
  | str (s : String)
  | arr (elems : List Json)
  | obj (fields : List (String × Json))

/-- Python subscription `result[key]` on a parsed JSON value: returns
the field of an object, and raises (`KeyError` / `TypeError`) otherwise. -/
def Json.getField (j : Json) (k : String) : Except String Json :=
  match j with
  | .obj fields =>
      match fields.lookup k with
      | some v => .ok v
      | none => .error ("KeyError: " ++ k)
  | _ => .error "TypeError: value is not subscriptable"

/-- Validation of `predicted_mood` / `confidence` when the
`PredictionResponse` pydantic model is built: the stored value must be
numeric. -/
def Json.asNum : Json → Except String ℚ
  | .num q => .ok q
  | _ => .error "value is not a valid float"

/-- Validation of `reasoning`: the stored value must be a string. -/
def Json.asStr : Json → Except String String
  | .str s => .ok s
  | _ => .error "value is not a valid string"

/-- Validation of `coping_strategies`: a list whose elements are
strings. -/
def Json.asStrList : Json → Except String (List String)
  | .arr elems => elems.mapM Json.asStr
  | _ => .error "value is not a valid list"

/-- The hard-coded default result substituted by `generate_prediction`
when `json.loads` fails on the model reply. -/
def fallbackResult : Json :=
  .obj
    [ ("predicted_mood", .num (7 / 2)),
      ("confidence", .num (7 / 10)),
      ("reasoning",
        .str "Based on your recent patterns, maintaining balance is key."),
      ("coping_strategies",
        .arr
          [ .str "Practice mindfulness for 10 minutes daily",
            .str "Maintain regular sleep schedule",
            .str "Stay connected with supportive people" ]) ]

/-- A prediction document as inserted into the `predictions`
collection.  The four fields taken from the model reply are stored raw
(whatever JSON values `result[...]` produced); `prediction_date` is the
calendar date of `now + 1 day`. -/
structure PredictionDoc where
  predicted_mood : Json
  confidence : Json
  reasoning : Json
  coping_strategies : Json
  prediction_date : ℤ
  is_active : Bool

/-- The validated `PredictionResponse` returned to the caller. -/
structure PredictionResp where
  predicted_mood : ℚ
  confidence : ℚ
  reasoning : String
  coping_strategies : List String
  prediction_date : ℤ
deriving DecidableEq

/-- The outcome of the model call in `generate_prediction`:
`Except.error` when `chat.send_message` itself raises, otherwise the
result of `json.loads` on the reply text (`none` when the text is not
valid JSON). -/
abbrev LlmOutcome := Except String (Option Json)

/-- The `generate_prediction` route.  Returns the possibly-grown
`predictions` collection together with either the response or the HTTP
status of the raised error.  The flow follows the source: reject with
400 when fewer than 3 entries have timestamps in the last 14 days; a
model-call failure raises and is caught as 500; an unparseable reply is
replaced by `fallbackResult`; the four fields are then extracted by
subscription (a missing field raises, caught as 500, before the insert);
the document is inserted; finally the pydantic response model validates
the field values (a failure there raises 500 after the insert). -/
def generatePrediction (now : ℤ) (entries : List MoodEntryDoc)
    (model : LlmOutcome) (predictions : List PredictionDoc) :
    List PredictionDoc × Except Nat PredictionResp :=
  let recent := entries.filter (fun e => now - 14 * dayUS ≤ e.timestamp)
  if recent.length < 3 then (predictions, .error 400)
  else
    match model with
    | .error _ => (predictions, .error 500)
    | .ok parsed =>
      let result := parsed.getD fallbackResult
      match result.getField "predicted_mood", result.getField "confidence",
          result.getField "reasoning", result.getField "coping_strategies" with
      | .ok pm, .ok cf, .ok rs, .ok cs =>
        let doc : PredictionDoc :=
          { predicted_mood := pm, confidence := cf, reasoning := rs,
            coping_strategies := cs, prediction_date := dateOf (now + dayUS),
            is_active := true }
        let predictions2 := predictions ++ [doc]
        match pm.asNum, cf.asNum, rs.asStr, cs.asStrList with
        | .ok pmq, .ok cfq, .ok rss, .ok css =>
            (predictions2,
             .ok { predicted_mood := pmq, confidence := cfq, reasoning := rss,
                   coping_strategies := css, prediction_date := dateOf (now + dayUS) })
        | _, _, _, _ => (predictions2, .error 500)
      | _, _, _, _ => (predictions, .error 500)

/-- The payment-transaction document of one checkout session, with the
fields the status poll and the webhook read and write.
`create_subscription_checkout` initialises it with
`payment_status = "pending"`, `status = "initiated"`,
`processed = false` (absent). -/
structure PayTx where
  package_id : String
  payment_status : String
  status : String
  processed : Bool
deriving DecidableEq

/-- The subscription fields of the owning user document. -/
structure SubState where
  subscription_status : Option String
  subscription_package : Option String
deriving DecidableEq

/-- The durable state touched by the two payment-completion paths for
one checkout session: its transaction document and the owning user.
`activations` is a ghost counter of how many times the
activate-subscription update has fired, used to state the
at-most-once invariant. -/
structure PayState where
  tx : PayTx
  sub : SubState
  activations : Nat
deriving DecidableEq

/-- The `$set` applied to the user by both completion paths. -/
def activateSubscription (s : PayState) : PayState :=
  { s with
      sub := { subscription_status := some "active",
               subscription_package := some s.tx.package_id },
      activations := s.activations + 1 }

/-- What Stripe reports for the session (`CheckoutStatusResponse` for
the poll, the webhook payload for the webhook). -/
structure StripeStatus where
  status : String
  payment_status : String
deriving DecidableEq

/-- The `get_subscription_status` route for this session, given what
Stripe would currently report.  If the stored transaction is already
`paid` it returns the cached state untouched; otherwise it activates the
subscription when Stripe says `paid` and the stored status is not
`paid`, then writes Stripe's `status`/`payment_status` (and
`processed`) onto the transaction. -/
def getSubscriptionStatus (cs : StripeStatus) (s : PayState) : PayState :=
  if s.tx.payment_status = "paid" then s
  else
    let fire := cs.payment_status = "paid" ∧ s.tx.payment_status ≠ "paid"
    let s1 := if fire then activateSubscription s else s
    { s1 with
        tx := { s1.tx with
                  status := cs.status,
                  payment_status := cs.payment_status,
                  processed := if fire then true else s1.tx.processed } }

/-- The `stripe_webhook` route for this session, given the webhook
payload.  Only a `paid` payload touches anything; it activates the
subscription and stamps the transaction `paid`/`complete` only when the
stored transaction is not already `paid`. -/
def stripeWebhook (wh : StripeStatus) (s : PayState) : PayState :=
  if wh.payment_status = "paid" then
    if s.tx.payment_status ≠ "paid" then
      let s1 := activateSubscription s
      { s1 with
          tx := { s1.tx with
                    payment_status := "paid", status := "complete",
                    processed := true } }
    else s
  else s

/-- The body of a `PUT /api/worry-tree/...` request
(`WorryUpdate`). -/
structure WorryUpdate where
  category : Option String
  intensity : Option Int
  resolution_note : Option String
deriving DecidableEq

/-- The `$set` document built by `update_worry` applied to a stored
worry: each present body field overwrites the stored one, and a
`category` of `"resolved"` additionally stamps `resolved_at` with the
current time. -/
def applyWorryUpdate (now : ℤ) (u : WorryUpdate) (w : WorryDoc) : WorryDoc :=
  let w1 :=
    match u.category with
    | some c => { w with category := c }
    | none => w
  let w2 :=
    match u.intensity with
    | some i => { w1 with intensity := i }
    | none => w1
  let w3 :=
    match u.resolution_note with
    | some n => { w2 with resolution_note := some n }
    | none => w2
  if u.category = some "resolved" then { w3 with resolved_at := some now }
  else w3

/-- The matching-and-replacement pass of `update_one` on the `worries`
collection: replace the first document matching the filter by its
updated image.  The reported `modified_count` is 1 exactly when such a
document exists and the applied `$set` actually changes it. -/
def worriesUpdateGo (now : ℤ) (worries : List WorryDoc)
    (worry_id user_id : String) (u : WorryUpdate) :
    List WorryDoc × Nat :=
  match worries with
  | [] => ([], 0)
  | w :: rest =>
    if w.id = worry_id ∧ w.user_id = user_id then
      let w2 := applyWorryUpdate now u w
      (w2 :: rest, if w2 = w then 0 else 1)
    else
      let r := worriesUpdateGo now rest worry_id user_id u
      (w :: r.1, r.2)

/-- `update_one` on the `worries` collection.  MongoDB rejects an empty
`$set` document with a FailedToParse write error, raised by the driver
before anything is matched; the `$set` built by `update_worry` is empty
exactly when all three body fields are absent (a present category, even
"resolved", contributes a field).  Otherwise the update runs and
reports its modified count. -/
def worriesUpdateOne (now : ℤ) (worries : List WorryDoc)
    (worry_id user_id : String) (u : WorryUpdate) :
    Except String (List WorryDoc × Nat) :=
  if u.category = none ∧ u.intensity = none ∧ u.resolution_note = none then
    .error "FailedToParse: empty $set"
  else .ok (worriesUpdateGo now worries worry_id user_id u)

/-- The `update_worry` route: apply the update scoped to the owner and
return 404 exactly when `modified_count == 0`; on success, re-read the
worry by id alone and return it.  The route catches no exception, so a
write error from `update_one` escapes as a 500 response with the
collection untouched. -/
def updateWorry (now : ℤ) (worries : List WorryDoc)
    (worry_id user_id : String) (u : WorryUpdate) :
    List WorryDoc × Except Nat WorryDoc :=
  match worriesUpdateOne now worries worry_id user_id u with
  | .error _ => (worries, .error 500)
  | .ok r =>
    if r.2 = 0 then (r.1, .error 404)
    else
      match r.1.find? (fun w => w.id = worry_id) with
      | some w => (r.1, .ok w)
      | none => (r.1, .error 500)

/-- A well-formed mood entry at a given timestamp, used as concrete
input by the witnesses. -/
def sampleEntry (t : ℤ) : MoodEntryDoc :=
  { mood_value := 5, mood_emoji := "happy", mood_color := "green",
    factors := [("sleep", 7), ("stress", 2)], journal_text := none,
    timestamp := t }

/-- A well-formed worry, used as concrete input by the witnesses. -/
def sampleWorry (i : String) : WorryDoc :=
  { id := i, user_id := "u1", worry_text := "w", category := "take_action",
    intensity := 5, created_at := 0, resolved_at := none,
    resolution_note := none }

/-! ### Helper lemmas about the streak computation -/

/-- On a non-empty date set whose ascending sort is known,
`computeStreaks` is the walk over the reversed (descending) list. -/
theorem computeStreaks_sorted (s : Finset ℤ) (l : List ℤ)
    (h : s.sort (· ≤ ·) = l) (hne : s ≠ ∅) :
    computeStreaks s = streakWalk l.reverse 0 1 1 0 := by
  rw [computeStreaks, if_neg hne, h]

/-- `computeStreaks` on the date set of a duplicate-free ascending
list. -/
theorem computeStreaks_toFinset (l : List ℤ) (h1 : l.Nodup)
    (h2 : l.Sorted (· ≤ ·)) (h3 : l ≠ []) :
    computeStreaks l.toFinset = streakWalk l.reverse 0 1 1 0 :=
  computeStreaks_sorted _ l ((List.toFinset_sort (· ≤ ·) h1).mpr h2)
    (fun h => h3 ((List.toFinset_eq_empty_iff l).mp h))

/-- The first component of the walk result never exceeds the second:
the loop ends with `longest_streak = max(longest_streak, current_streak)`. -/
theorem streakWalk_fst_le_snd (l : List ℤ) :
    ∀ i temp current longest,
      (streakWalk l i temp current longest).1 ≤
        (streakWalk l i temp current longest).2 := by
  induction l with
  | nil =>
    intro i temp current longest
    simp only [streakWalk]
    exact Nat.le_max_right _ _
  | cons a t ih =>
    intro i temp current longest
    cases t with
    | nil =>
      simp only [streakWalk]
      exact Nat.le_max_right _ _
    | cons b rest =>
      rw [streakWalk]
      split
      · exact ih _ _ _ _
      · exact ih _ _ _ _

/-- A single-date history yields streaks `(1, 1)`. -/
theorem computeStreaks_singleton (d : ℤ) : computeStreaks {d} = (1, 1) := by
  rw [computeStreaks, if_neg (Finset.singleton_ne_empty d), Finset.sort_singleton]
  rfl

/-! ### The claims -/

/-- Claim C1: the claimed current-streak test vectors, evaluated on the
embedded code.  The claim states that three consecutive dates
`{D, D-1, D-2}` give current streak 3; the code gives 2, because the
loop assigns `current_streak` only in the `i == 0` iteration, so the
current streak can never exceed 2 (making the 7/30/365-days-in-a-row
achievements unreachable).  The other two vectors match the claim.  The
last conjunct evaluates the streak at entries logged on three
consecutive days, as the achievements endpoint derives it. -/
theorem currentStreak_claimed_vectors :
    computeStreaks ([0, 1, 2] : List ℤ).toFinset = (2, 3) ∧
      computeStreaks ([0, 2] : List ℤ).toFinset = (1, 1) ∧
      computeStreaks ([0, 1, 3, 4] : List ℤ).toFinset = (2, 2) ∧
      computeStreaks
        (entryDates [sampleEntry 0, sampleEntry dayUS, sampleEntry (2 * dayUS)]) =
        (2, 3) := by
  have h1 : computeStreaks ([0, 1, 2] : List ℤ).toFinset = (2, 3) := by
    rw [computeStreaks_toFinset _ (by decide) (by decide) (by decide)]
    decide
  refine ⟨h1, ?_, ?_, ?_⟩
  · rw [computeStreaks_toFinset _ (by decide) (by decide) (by decide)]
    decide
  · rw [computeStreaks_toFinset _ (by decide) (by decide) (by decide)]
    decide
  · have he :
        entryDates [sampleEntry 0, sampleEntry dayUS, sampleEntry (2 * dayUS)] =
          ([0, 1, 2] : List ℤ).toFinset := by decide
    rw [he, h1]

/-- Claim C5: for every set of distinct dates the current streak is at
most the longest streak, and a one-element set yields `(1, 1)`. -/
theorem currentStreak_le_longestStreak (dates : Finset ℤ) :
    (computeStreaks dates).1 ≤ (computeStreaks dates).2 ∧
      (dates.card = 1 → computeStreaks dates = (1, 1)) := by
  constructor
  · rw [computeStreaks]
    split
    · exact Nat.le_refl 0
    · exact streakWalk_fst_le_snd _ 0 1 1 0
  · intro h
    obtain ⟨a, rfl⟩ := Finset.card_eq_one.mp h
    exact computeStreaks_singleton a

/-- Witness for C5 at the singleton date set containing day 3. -/
theorem currentStreak_le_longestStreak_witness :
    ((computeStreaks ({3} : Finset ℤ)).1 ≤ (computeStreaks ({3} : Finset ℤ)).2) ∧
      ({3} : Finset ℤ).card = 1 ∧ computeStreaks ({3} : Finset ℤ) = (1, 1) :=
  ⟨(currentStreak_le_longestStreak {3}).1, by decide,
    (currentStreak_le_longestStreak {3}).2 (by decide)⟩

/-- Claim C9: the achievement with id "6" is locked with zero progress
and requirement 50 in every response, whatever the entry and worry
history. -/
theorem achievement6_never_unlocked (entries : List MoodEntryDoc)
    (worries : List WorryDoc) (a : Achievement)
    (ha : a ∈ (getAchievements entries worries).achievements)
    (hid : a.id = "6") :
    a.unlocked = false ∧ a.progress = 0 ∧ a.requirement = 50 := by
  simp only [getAchievements, achievementCatalog, List.mem_cons,
    List.not_mem_nil, or_false] at ha
  rcases ha with rfl | rfl | rfl | rfl | rfl | rfl | rfl | rfl | rfl <;>
    first
      | exact ⟨rfl, rfl, rfl⟩
      | exact absurd hid (by
          first
            | exact (by decide : ("1" : String) ≠ "6")
            | exact (by decide : ("2" : String) ≠ "6")
            | exact (by decide : ("3" : String) ≠ "6")
            | exact (by decide : ("4" : String) ≠ "6")
            | exact (by decide : ("5" : String) ≠ "6")
            | exact (by decide : ("7" : String) ≠ "6")
            | exact (by decide : ("8" : String) ≠ "6")
            | exact (by decide : ("9" : String) ≠ "6"))

/-- Witness for C9 at the empty history. -/
theorem achievement6_never_unlocked_witness :
    ({ id := "6", title := "Growth Mindset",
       description := "Log 50 journal entries", icon := "ðŸŒ±",
       unlocked := false, progress := 0, requirement := 50 } : Achievement) ∈
        (getAchievements [] []).achievements ∧
      (false = false ∧ 0 = 0 ∧ 50 = 50) :=
  ⟨by decide,
    achievement6_never_unlocked [] []
      { id := "6", title := "Growth Mindset",
        description := "Log 50 journal entries", icon := "ðŸŒ±",
        unlocked := false, progress := 0, requirement := 50 }
      (by decide) rfl⟩

/-- Claim C7: the completion percentage is the unlocked count over 9,
times 100, rounded to the nearest integer; exactly 3 unlocked
achievements give 33. -/
theorem completion_is_rounded_ninths (entries : List MoodEntryDoc)
    (worries : List WorryDoc) :
    (getAchievements entries worries).stats.completion =
      round ((((getAchievements entries worries).achievements.filter
        (fun a => a.unlocked)).length : ℚ) / 9 * 100) ∧
      (((getAchievements entries worries).achievements.filter
          (fun a => a.unlocked)).length = 3 →
        (getAchievements entries worries).stats.completion = 33) := by
  have hlen : ∀ m w r h c, (achievementCatalog m w r h c).length = 9 :=
    fun _ _ _ _ _ => rfl
  constructor
  · simp only [getAchievements, hlen]
    norm_num
  · intro h
    simp only [getAchievements, hlen] at h ⊢
    rw [h]
    norm_num [round_eq]

/-- Witness for C7: ten happy same-day entries and ten open worries
unlock exactly achievements 1, 5 and 7, and completion is 33. -/
theorem completion_is_rounded_ninths_witness :
    ((getAchievements (List.replicate 10 (sampleEntry 0))
        (List.replicate 10 (sampleWorry "x"))).achievements.filter
      (fun a => a.unlocked)).length = 3 ∧
      (getAchievements (List.replicate 10 (sampleEntry 0))
        (List.replicate 10 (sampleWorry "x"))).stats.completion = 33 := by
  have hd : entryDates (List.replicate 10 (sampleEntry 0)) = {0} := by decide
  have h3 : ((getAchievements (List.replicate 10 (sampleEntry 0))
      (List.replicate 10 (sampleWorry "x"))).achievements.filter
        (fun a => a.unlocked)).length = 3 := by
    simp only [getAchievements, achievementCatalog, hd, computeStreaks_singleton]
    decide
  exact ⟨h3, (completion_is_rounded_ninths _ _).2 h3⟩

/-- Looking a key up in a list that maps each key of `l` to `f` of that
key returns `some (f k)` for every key of `l`. -/
theorem lookup_map_keyed (l : List (String × ℚ)) (f : String → ℚ) (k : String)
    (h : k ∈ l.map Prod.fst) :
    (l.map (fun kv => (kv.1, f kv.1))).lookup k = some (f k) := by
  induction l with
  | nil => simp at h
  | cons kv t ih =>
    simp only [List.map_cons, List.mem_cons] at h
    by_cases hk : k = kv.1
    · simp [List.lookup, hk]
    · have ht : k ∈ t.map Prod.fst := by
        rcases h with h | h
        · exact absurd h hk
        · exact h
      have hbeq : (k == kv.1) = false := beq_eq_false_iff_ne.mpr hk
      simp [List.lookup, hbeq, ih ht]

/-- Claim C8: for a non-empty statistics window, `average_factors` has
exactly the factor keys of the first windowed entry, and each value is
the sum of that factor over all windowed entries (0 for entries missing
the key) divided by the full window size. -/
theorem average_factors_keys_and_values (now : ℤ) (days : Nat)
    (allEntries : List MoodEntryDoc) (e0 : MoodEntryDoc)
    (rest : List MoodEntryDoc)
    (h : allEntries.filter (fun e => now - days * dayUS ≤ e.timestamp) =
      e0 :: rest) :
    (getMoodStats now days allEntries).average_factors.map Prod.fst =
        e0.factors.map Prod.fst ∧
      ∀ k ∈ e0.factors.map Prod.fst,
        (getMoodStats now days allEntries).average_factors.lookup k =
          some (((e0 :: rest).map (fun e => factorsGet e.factors k)).sum /
            (((e0 :: rest).length : ℚ))) := by
  have havg : (getMoodStats now days allEntries).average_factors =
      e0.factors.map (fun kv =>
        (kv.1, ((e0 :: rest).map (fun e => factorsGet e.factors kv.1)).sum /
          (((e0 :: rest).length : ℚ)))) := by
    simp only [getMoodStats, h]
  constructor
  · rw [havg, List.map_map]
    rfl
  · intro k hk
    rw [havg]
    exact lookup_map_keyed e0.factors
      (fun k2 => ((e0 :: rest).map (fun e => factorsGet e.factors k2)).sum /
        (((e0 :: rest).length : ℚ))) k hk

/-- Witness for C8 at a one-entry window. -/
theorem average_factors_keys_and_values_witness :
    ([sampleEntry 0].filter
        (fun e => (0 : ℤ) - (30 : Nat) * dayUS ≤ e.timestamp) =
      [sampleEntry 0]) ∧
      ((getMoodStats 0 30 [sampleEntry 0]).average_factors.map Prod.fst =
          (sampleEntry 0).factors.map Prod.fst ∧
        ∀ k ∈ (sampleEntry 0).factors.map Prod.fst,
          (getMoodStats 0 30 [sampleEntry 0]).average_factors.lookup k =
            some (([sampleEntry 0].map (fun e => factorsGet e.factors k)).sum /
              ((([sampleEntry 0] : List MoodEntryDoc).length : ℚ)))) :=
  ⟨rfl, average_factors_keys_and_values 0 30 [sampleEntry 0] (sampleEntry 0) [] rfl⟩

/-- Claim C4: the prediction route raises 400 exactly when fewer than 3
entries fall in the last 14 days, and a rejection persists nothing; with
3 or more entries the route proceeds (whatever then happens, it is not
the 400 rejection). -/
theorem prediction_requires_three_recent (now : ℤ) (entries : List MoodEntryDoc)
    (model : LlmOutcome) (predictions : List PredictionDoc) :
    ((generatePrediction now entries model predictions).2 = .error 400 ↔
        (entries.filter (fun e => now - 14 * dayUS ≤ e.timestamp)).length < 3) ∧
      ((entries.filter (fun e => now - 14 * dayUS ≤ e.timestamp)).length < 3 →
        (generatePrediction now entries model predictions).1 = predictions) := by
  by_cases hlen :
      (entries.filter (fun e => now - 14 * dayUS ≤ e.timestamp)).length < 3
  · refine ⟨⟨fun _ => hlen, fun _ => ?_⟩, fun _ => ?_⟩
    · simp only [generatePrediction]
      rw [if_pos hlen]
    · simp only [generatePrediction]
      rw [if_pos hlen]
  · refine ⟨⟨fun h400 => absurd h400 ?_, fun h => absurd h hlen⟩,
      fun h => absurd h hlen⟩
    simp only [generatePrediction, if_neg hlen]
    repeat' split
    all_goals simp

/-- Witness for C4: with no entries at all, the route rejects with 400
and stores nothing. -/
theorem prediction_requires_three_recent_witness :
    (generatePrediction 0 [] (Except.error "model down") []).2 =
        Except.error 400 ∧
      (generatePrediction 0 [] (Except.error "model down") []).1 =
        ([] : List PredictionDoc) :=
  ⟨(prediction_requires_three_recent 0 [] (.error "model down") []).1.mpr
      (by decide),
    (prediction_requires_three_recent 0 [] (.error "model down") []).2
      (by decide)⟩

/-- Claim C3 counterexample: a model reply that is valid JSON but lacks
the required fields — the empty JSON object, i.e. reply text consisting
of just the two braces — is not replaced by the neutral fallback.  With
ample history the route raises 500 and persists nothing, so the claim
that every reply failing to parse as a structured result with the four
fields yields the persisted fallback and success is false. -/
theorem empty_object_reply_raises_500 :
    (generatePrediction 0 [sampleEntry 0, sampleEntry 1, sampleEntry 2]
        (.ok (some (Json.obj []))) []).2 = Except.error 500 ∧
      (generatePrediction 0 [sampleEntry 0, sampleEntry 1, sampleEntry 2]
        (.ok (some (Json.obj []))) []).1 = [] :=
  ⟨rfl, rfl⟩

/-- Claim C3 as amended: only a reply that is not valid JSON at all is
replaced by the fixed neutral fallback (predicted mood 3.5, confidence
0.7, fixed reasoning and strategies), which is persisted and returned as
success; a failure of the model call itself surfaces as a 500 error with
nothing persisted. -/
theorem parse_failure_uses_fallback (now : ℤ) (entries : List MoodEntryDoc)
    (predictions : List PredictionDoc)
    (h : ¬ (entries.filter (fun e => now - 14 * dayUS ≤ e.timestamp)).length < 3) :
    (∀ s, generatePrediction now entries (.error s) predictions =
        (predictions, .error 500)) ∧
      generatePrediction now entries (.ok none) predictions =
        (predictions ++
          [{ predicted_mood := .num (7 / 2), confidence := .num (7 / 10),
             reasoning :=
               .str "Based on your recent patterns, maintaining balance is key.",
             coping_strategies :=
               .arr
                 [ .str "Practice mindfulness for 10 minutes daily",
                   .str "Maintain regular sleep schedule",
                   .str "Stay connected with supportive people" ],
             prediction_date := dateOf (now + dayUS), is_active := true }],
         .ok { predicted_mood := 7 / 2, confidence := 7 / 10,
               reasoning :=
                 "Based on your recent patterns, maintaining balance is key.",
               coping_strategies :=
                 [ "Practice mindfulness for 10 minutes daily",
                   "Maintain regular sleep schedule",
                   "Stay connected with supportive people" ],
               prediction_date := dateOf (now + dayUS) }) := by
  constructor
  · intro s
    simp only [generatePrediction, if_neg h]
  · simp only [generatePrediction, if_neg h]
    rfl

/-- Witness for C3 (amended) with three same-day entries. -/
theorem parse_failure_uses_fallback_witness :
    (¬ (([sampleEntry 0, sampleEntry 1, sampleEntry 2].filter
        (fun e => (0 : ℤ) - 14 * dayUS ≤ e.timestamp)).length < 3)) ∧
      generatePrediction 0 [sampleEntry 0, sampleEntry 1, sampleEntry 2]
          (.error "model down") [] = ([], .error 500) ∧
      (generatePrediction 0 [sampleEntry 0, sampleEntry 1, sampleEntry 2]
          (.ok none) []).2 =
        .ok { predicted_mood := 7 / 2, confidence := 7 / 10,
              reasoning :=
                "Based on your recent patterns, maintaining balance is key.",
              coping_strategies :=
                [ "Practice mindfulness for 10 minutes daily",
                  "Maintain regular sleep schedule",
                  "Stay connected with supportive people" ],
              prediction_date := dateOf ((0 : ℤ) + dayUS) } :=
  ⟨by decide,
    (parse_failure_uses_fallback 0 [sampleEntry 0, sampleEntry 1, sampleEntry 2]
      [] (by decide)).1 "model down",
    by
      rw [(parse_failure_uses_fallback 0
        [sampleEntry 0, sampleEntry 1, sampleEntry 2] [] (by decide)).2]⟩

/-- Claim C2: when a status poll and a webhook both observe the same
session as paid, in either order, the first arrival activates the
subscription (exactly one activation fires), sets the stored
`payment_status` to paid, and the second arrival leaves the state
untouched. -/
theorem activation_fires_at_most_once (s : PayState) (cs wh : StripeStatus)
    (hs : s.tx.payment_status ≠ "paid")
    (hcs : cs.payment_status = "paid") (hwh : wh.payment_status = "paid") :
    (stripeWebhook wh (getSubscriptionStatus cs s) =
        getSubscriptionStatus cs s ∧
      (getSubscriptionStatus cs s).activations = s.activations + 1 ∧
      (getSubscriptionStatus cs s).tx.payment_status = "paid" ∧
      (getSubscriptionStatus cs s).sub.subscription_status = some "active") ∧
    (getSubscriptionStatus cs (stripeWebhook wh s) = stripeWebhook wh s ∧
      (stripeWebhook wh s).activations = s.activations + 1 ∧
      (stripeWebhook wh s).tx.payment_status = "paid" ∧
      (stripeWebhook wh s).sub.subscription_status = some "active") := by
  have hpoll : getSubscriptionStatus cs s =
      { tx := { package_id := s.tx.package_id, payment_status := "paid",
                status := cs.status, processed := true },
        sub := { subscription_status := some "active",
                 subscription_package := some s.tx.package_id },
        activations := s.activations + 1 } := by
    simp [getSubscriptionStatus, activateSubscription, hs, hcs]
  have hweb : stripeWebhook wh s =
      { tx := { package_id := s.tx.package_id, payment_status := "paid",
                status := "complete", processed := true },
        sub := { subscription_status := some "active",
                 subscription_package := some s.tx.package_id },
        activations := s.activations + 1 } := by
    simp [stripeWebhook, activateSubscription, hs, hwh]
  refine ⟨⟨?_, ?_, ?_, ?_⟩, ⟨?_, ?_, ?_, ?_⟩⟩
  · rw [hpoll]
    simp [stripeWebhook, hwh]
  · rw [hpoll]
  · rw [hpoll]
  · rw [hpoll]
  · rw [hweb]
    simp [getSubscriptionStatus]
  · rw [hweb]
  · rw [hweb]
  · rw [hweb]

/-- Witness for C2 on a fresh pending transaction. -/
theorem activation_fires_at_most_once_witness :
    (({ tx := { package_id := "monthly", payment_status := "pending",
                status := "initiated", processed := false },
        sub := { subscription_status := none, subscription_package := none },
        activations := 0 } : PayState).tx.payment_status ≠ "paid") ∧
      (stripeWebhook { status := "complete", payment_status := "paid" }
          (getSubscriptionStatus { status := "complete", payment_status := "paid" }
            { tx := { package_id := "monthly", payment_status := "pending",
                      status := "initiated", processed := false },
              sub := { subscription_status := none, subscription_package := none },
              activations := 0 }) =
        getSubscriptionStatus { status := "complete", payment_status := "paid" }
          { tx := { package_id := "monthly", payment_status := "pending",
                    status := "initiated", processed := false },
            sub := { subscription_status := none, subscription_package := none },
            activations := 0 }) ∧
      (getSubscriptionStatus { status := "complete", payment_status := "paid" }
          { tx := { package_id := "monthly", payment_status := "pending",
                    status := "initiated", processed := false },
            sub := { subscription_status := none, subscription_package := none },
            activations := 0 }).activations = 0 + 1 :=
  ⟨by decide,
    (activation_fires_at_most_once
      { tx := { package_id := "monthly", payment_status := "pending",
                status := "initiated", processed := false },
        sub := { subscription_status := none, subscription_package := none },
        activations := 0 }
      { status := "complete", payment_status := "paid" }
      { status := "complete", payment_status := "paid" }
      (by decide) rfl rfl).1.1,
    (activation_fires_at_most_once
      { tx := { package_id := "monthly", payment_status := "pending",
                status := "initiated", processed := false },
        sub := { subscription_status := none, subscription_package := none },
        activations := 0 }
      { status := "complete", payment_status := "paid" }
      { status := "complete", payment_status := "paid" }
      (by decide) rfl rfl).1.2.1⟩

/-- The modified count of the worries update pass: 0 when no stored
worry matches the id-and-owner filter, and otherwise 0 or 1 according to
whether the `$set` changes the first matching document. -/
theorem worriesUpdateGo_modified (now : ℤ) (worries : List WorryDoc)
    (wid uid : String) (u : WorryUpdate) :
    (worriesUpdateGo now worries wid uid u).2 =
      (match worries.find? (fun x => x.id = wid ∧ x.user_id = uid) with
        | none => 0
        | some w => if applyWorryUpdate now u w = w then 0 else 1) := by
  induction worries with
  | nil => rfl
  | cons w t ih =>
    by_cases hw : w.id = wid ∧ w.user_id = uid
    · simp [worriesUpdateGo, List.find?, hw]
    · simp [worriesUpdateGo, List.find?, hw, ih]

/-- Claim C10 counterexample: a PUT body with all fields absent on an
existing worry owned by the caller does not return 404 as the claim
states: the route builds an empty `$set`, the database rejects it with a
write error the route does not catch, and the endpoint returns 500. -/
theorem empty_body_update_returns_500 :
    ([sampleWorry "a"].find?
        (fun x => x.id = "a" ∧ x.user_id = "u1") = some (sampleWorry "a")) ∧
      (updateWorry 0 [sampleWorry "a"] "a" "u1"
          { category := none, intensity := none, resolution_note := none }).2 =
        .error 500 :=
  ⟨rfl, rfl⟩

/-- Claim C10 as amended: whenever the body has at least one field
present, the route returns 404 exactly when the update modifies zero
documents — in particular a no-op update (for example a category equal
to the stored one) on an existing owned worry yields 404 rather than
success; a body with all fields absent instead produces an empty `$set`,
which the database rejects, and the route surfaces 500 with the
collection untouched. -/
theorem updateWorry_404_amended (now : ℤ) (worries : List WorryDoc)
    (wid uid : String) (u : WorryUpdate) :
    ((¬(u.category = none ∧ u.intensity = none ∧ u.resolution_note = none)) →
        ((updateWorry now worries wid uid u).2 = .error 404 ↔
          (worriesUpdateGo now worries wid uid u).2 = 0)) ∧
      ((u.category = none ∧ u.intensity = none ∧ u.resolution_note = none) →
        updateWorry now worries wid uid u = (worries, .error 500)) ∧
      (∀ w, worries.find? (fun x => x.id = wid ∧ x.user_id = uid) = some w →
        applyWorryUpdate now u w = w →
        ¬(u.category = none ∧ u.intensity = none ∧ u.resolution_note = none) →
        (updateWorry now worries wid uid u).2 = .error 404) := by
  refine ⟨?_, ?_, ?_⟩
  · intro hne
    have hok : worriesUpdateOne now worries wid uid u =
        .ok (worriesUpdateGo now worries wid uid u) := by
      rw [worriesUpdateOne, if_neg hne]
    by_cases h0 : (worriesUpdateGo now worries wid uid u).2 = 0
    · constructor
      · intro _; exact h0
      · intro _
        simp only [updateWorry, hok]
        rw [if_pos h0]
    · constructor
      · intro h404
        exfalso
        revert h404
        simp only [updateWorry, hok]
        rw [if_neg h0]
        split <;> simp
      · intro h; exact absurd h h0
  · intro he
    rw [updateWorry, worriesUpdateOne, if_pos he]
  · intro w hfind hnoop hne
    have hok : worriesUpdateOne now worries wid uid u =
        .ok (worriesUpdateGo now worries wid uid u) := by
      rw [worriesUpdateOne, if_neg hne]
    have h0 : (worriesUpdateGo now worries wid uid u).2 = 0 := by
      rw [worriesUpdateGo_modified, hfind]
      simp [hnoop]
    simp only [updateWorry, hok]
    rw [if_pos h0]

/-- Witness for the amended C10: updating an existing owned worry with
its stored category (a non-empty no-op `$set`) returns 404. -/
theorem updateWorry_404_amended_witness :
    ([sampleWorry "a"].find?
        (fun x => x.id = "a" ∧ x.user_id = "u1") = some (sampleWorry "a")) ∧
      applyWorryUpdate 0
          { category := some "take_action", intensity := none,
            resolution_note := none } (sampleWorry "a") = sampleWorry "a" ∧
      (¬(({ category := some "take_action", intensity := none,
            resolution_note := none } : WorryUpdate).category = none ∧
          ({ category := some "take_action", intensity := none,
             resolution_note := none } : WorryUpdate).intensity = none ∧
          ({ category := some "take_action", intensity := none,
             resolution_note := none } : WorryUpdate).resolution_note = none)) ∧
      (updateWorry 0 [sampleWorry "a"] "a" "u1"
          { category := some "take_action", intensity := none,
            resolution_note := none }).2 = .error 404 :=
  ⟨by decide, by decide, by decide,
    (updateWorry_404_amended 0 [sampleWorry "a"] "a" "u1"
      { category := some "take_action", intensity := none,
        resolution_note := none }).2.2 (sampleWorry "a") (by decide) (by decide)
      (by decide)⟩

end MoodNest
